import Mathlib

/-!
Shallow embedding of the `gemini-trading` backtesting kernel: events and
commissions (`backtester/events.py`), the simulated execution handler
(`backtester/execution.py`), the IBKR data handler (`backtester/data_handler.py`),
the factor evaluation agent (`agents/eval_agent.py`) and the factor
construction agent (`agents/factor_agent.py`).

Python floats holding prices/commissions are modelled as `ℚ`; Python ints as
`ℤ` (or `ℕ` for list indices); Python dicts as insertion-ordered association
lists; the FIFO event queue as a `List` with `put` appending at the tail.
-/

namespace GeminiTrading

/-- `dict.get(key)` on an insertion-ordered association list: `some v` for the
first matching key, `none` when the key is absent. -/
def dictGet {α : Type} : List (String × α) → String → Option α
  | [], _ => none
  | (k, v) :: rest, key => if k = key then some v else dictGet rest key

/-! ## backtester/events.py -/

/-- `OrderEvent.__init__`: symbol, order type ('MKT'/'LMT'), quantity,
direction ('BUY'/'SELL').  The `type` tag `'ORDER'` is represented by the
`Event.order` constructor below. -/
structure OrderEvent where
  symbol : String
  order_type : String
  quantity : ℤ
  direction : String
deriving DecidableEq, Repr

/-- `FillEvent` fields as stored by `FillEvent.__init__`: `fill_cost` is kept
as an `Option ℚ` because the Python code may pass `None` for it. -/
structure FillEvent where
  timeindex : ℕ
  symbol : String
  exchange : String
  quantity : ℤ
  direction : String
  fill_cost : Option ℚ
  commission : ℚ
deriving DecidableEq, Repr

/-- `FillEvent.calculate_ib_commission`: tiered IB fee schedule.
`max(1.3, 0.013*qty)` for `qty <= 500`, `max(1.3, 0.008*qty)` otherwise. -/
def calculate_ib_commission (quantity : ℤ) : ℚ :=
  if quantity ≤ 500 then max 1.3 (0.013 * (quantity : ℚ))
  else max 1.3 (0.008 * (quantity : ℚ))

/-- `FillEvent.__init__`: when the `commission` argument is `None` the stored
commission is computed by `calculate_ib_commission`, otherwise the argument is
stored unchanged. -/
def FillEvent.init (timeindex : ℕ) (symbol exchange : String) (quantity : ℤ)
    (direction : String) (fill_cost : Option ℚ) (commission : Option ℚ) : FillEvent :=
  { timeindex := timeindex
    symbol := symbol
    exchange := exchange
    quantity := quantity
    direction := direction
    fill_cost := fill_cost
    commission :=
      match commission with
      | none => calculate_ib_commission quantity
      | some c => c }

/-- The closed set of event variants flowing through the queue.  The Python
`type` string tag (`'MARKET'`, `'SIGNAL'`, `'ORDER'`, `'FILL'`) is represented
by the constructor. -/
inductive Event where
  | market : Event
  | signal (symbol : String) (datetime : ℕ) (signal_type : String) : Event
  | order (o : OrderEvent) : Event
  | fill (f : FillEvent) : Event
deriving DecidableEq, Repr

/-! ## backtester/execution.py -/

/-- `SimulatedExecutionHandler.execute_order`: if the incoming event has type
`'ORDER'`, construct `FillEvent(datetime.datetime.utcnow(), event.symbol,
'ARCA', event.quantity, event.direction, None)` — so `fill_cost` is `None` and
the commission argument defaults to `None` — and `put` it on the event queue.
Other event types leave the queue unchanged.  `now` stands for
`datetime.datetime.utcnow()`; the queue is the list `events`, `put` appends. -/
def execute_order (now : ℕ) (events : List Event) (event : Event) : List Event :=
  match event with
  | .order o =>
      events ++ [.fill (FillEvent.init now o.symbol "ARCA" o.quantity o.direction none none)]
  | _ => events

/-- Sequentially feed a list of events through `execute_order` (the handler is
invoked once per popped Order event by the surrounding loop). -/
def execute_orders (now : ℕ) (events : List Event) (incoming : List Event) : List Event :=
  incoming.foldl (execute_order now) events

/-! ## backtester/data_handler.py -/

/-- One OHLCV bar as appended to `latest_symbol_data` by `stream_next_bar`
(a row of the pandas frame: `date, open, high, low, close, volume`). -/
structure Bar where
  date : ℚ
  open_ : ℚ
  high : ℚ
  low : ℚ
  close : ℚ
  volume : ℚ
deriving DecidableEq, Repr

/-- The lowercase attribute names `get_latest_bar_value` resolves with
`getattr(bar, val_type.lower())`. -/
inductive ValType where
  | date | open_ | high | low | close | volume
deriving DecidableEq, Repr

/-- `getattr(bar, val_type.lower())` for the bar attributes. -/
def Bar.getattr (b : Bar) : ValType → ℚ
  | .date => b.date
  | .open_ => b.open_
  | .high => b.high
  | .low => b.low
  | .close => b.close
  | .volume => b.volume

/-- The `IBKRDataHandler` state the backtest reads: `symbol_data` maps each
symbol to its fetched bar frame, `latest_symbol_data` to the bars streamed so
far.  Both are insertion-ordered dicts. -/
structure IBKRDataHandler where
  symbol_data : List (String × List Bar)
  latest_symbol_data : List (String × List Bar)
  continue_backtest : Bool := true

/-- `IBKRDataHandler.get_latest_bar_datetime`: Python tests
`if self.latest_symbol_data.get(symbol):` — falsy for a missing key (`None`)
and for an empty list — then returns `[-1].date`; otherwise `None`. -/
def get_latest_bar_datetime (h : IBKRDataHandler) (symbol : String) : Option ℚ :=
  match dictGet h.latest_symbol_data symbol with
  | some bars => bars.getLast?.map Bar.date
  | none => none

/-- `IBKRDataHandler.get_latest_bar_value`: same truthiness guard as
`get_latest_bar_datetime`, then `getattr(self.latest_symbol_data[symbol][-1],
val_type.lower())`; `None` when the symbol has no recorded bar. -/
def get_latest_bar_value (h : IBKRDataHandler) (symbol : String) (val_type : ValType) :
    Option ℚ :=
  match dictGet h.latest_symbol_data symbol with
  | some bars => bars.getLast?.map (fun b => b.getattr val_type)
  | none => none

/-- The emission trace of `IBKRDataHandler.stream_next_bar`: the generator
iterates `for symbol, data in self.symbol_data.items(): for bar in
data.itertuples(): ...append(bar); events.put(MarketEvent()); yield`.  Each
trace element `(symbol, i)` stands for one loop step — the append of bar
number `i` of `symbol`, the `put` of one payload-free `MarketEvent`, and the
`yield` back to the caller — in the exact order the generator performs them. -/
def stream_next_bar_trace (symbol_data : List (String × List Bar)) : List (String × ℕ) :=
  symbol_data.flatMap (fun p => (List.range p.2.length).map (fun i => (p.1, i)))

/-- The Market events `stream_next_bar` puts on the queue: one payload-free
`MarketEvent()` per trace step. -/
def stream_next_bar_events (symbol_data : List (String × List Bar)) : List Event :=
  (stream_next_bar_trace symbol_data).map (fun _ => Event.market)

/-! ## agents/eval_agent.py -/

/-- The Python exception kinds raised by the code paths modelled here. -/
inductive PyError where
  | indexError
  | keyError
  | other (msg : String)
deriving DecidableEq, Repr

/-- `EvalAgent._apply_factor`: the whole `try` body — `close = data['Close']`
followed by `eval(factor_code, globals(), {'close': close})` — is abstracted
as the fallible evaluation function `ev` (arbitrary Python evaluation is not
embeddable); the `except Exception` arm prints and returns `None`. -/
def apply_factor {α β : Type} (ev : String → α → Except PyError β)
    (factor_code : String) (data : α) : Option β :=
  match ev factor_code data with
  | .ok v => some v
  | .error _ => none

/-- Modelled from the spec: the bar-synchronous loop that would turn factor
values into Signal events is missing from the source (`evaluate_factor` holds
only a commented-out placeholder), and the spec requires that on a scoring
failure no Signal is emitted for that symbol/tick.  `emit` is the signal
generation applied to successfully computed factor values. -/
def signals_from_factor {β : Type} (emit : β → List Event) : Option β → List Event
  | none => []
  | some v => emit v

/-- A pandas DataFrame as `evaluate_factor` touches it: only its index (the
ordered bar timestamps) matters for the modelled prologue. -/
structure Frame where
  index : List ℚ
deriving DecidableEq, Repr

/-- The prologue of `EvalAgent.evaluate_factor`:
`start_date = data_handler.symbol_data[data_handler.symbol_list[0]].index[0]`.
`symbol_list[0]` raises `IndexError` on an empty symbol list, the dict lookup
raises `KeyError` for a missing symbol, and `.index[0]` raises `IndexError`
when the frame holds zero bars. -/
def evaluate_factor_start (symbol_list : List String)
    (symbol_data : List (String × Frame)) : Except PyError ℚ :=
  match symbol_list with
  | [] => .error .indexError
  | s :: _ =>
    match dictGet symbol_data s with
    | none => .error .keyError
    | some f =>
      match f.index with
      | [] => .error .indexError
      | t :: _ => .ok t

/-- `(1 + dummy_returns).cumprod()`: the running products of `1 + r`. -/
def cumprod (xs : List ℚ) : List ℚ :=
  (xs.scanl (· * ·) 1).tail

/-- The dummy equity curve built in `evaluate_factor`:
`dummy_equity_curve = (1 + dummy_returns).cumprod()`, where `dummy_returns`
is the array drawn from `np.random.rand(100)` (modelled as an input). -/
def dummy_equity_curve (dummy_returns : List ℚ) : List ℚ :=
  cumprod (dummy_returns.map (fun r => 1 + r))

/-- `DummyPortfolio.output_summary_stats` from `evaluate_factor`: ignores the
stored equity curve entirely and returns four hardcoded statistics. -/
def output_summary_stats (equity_curve : List ℚ) : List (String × String) :=
  [("Total Return", "10.50%"), ("Sharpe Ratio", "1.5"),
   ("Max Drawdown", "5.20%"), ("Drawdown Duration", "10")]

/-- The `performance_metrics` value `evaluate_factor` returns, as a function
of the random draw: the dummy portfolio is built from the dummy equity curve
and its `output_summary_stats()` is taken. -/
def evaluate_factor_metrics (dummy_returns : List ℚ) : List (String × String) :=
  output_summary_stats (dummy_equity_curve dummy_returns)

/-! ## agents/factor_agent.py -/

/-- A Python AST node as `_check_complexity` inspects it: whether it is an
`ast.Call`, `len(node.args)` for calls (0 otherwise), and its child nodes
(`ast.iter_child_nodes`). -/
inductive PyAst where
  | node (isCall : Bool) (numArgs : ℕ) (children : List PyAst)

mutual

/-- `FactorAgent._get_ast_depth`: one plus the maximum depth over the child
nodes (zero when there are none). -/
def ast_depth : PyAst → ℕ
  | .node _ _ children => ast_depth_list children + 1

/-- Maximum of `ast_depth` over a list of children (the `max_depth`
accumulator of `_get_ast_depth`). -/
def ast_depth_list : List PyAst → ℕ
  | [] => 0
  | c :: cs => max (ast_depth c) (ast_depth_list cs)

end

mutual

/-- The `num_params` count of `_check_complexity`: for every `ast.Call` node
in `ast.walk(tree)`, add `len(node.args)`. -/
def count_call_args : PyAst → ℕ
  | .node isCall numArgs children =>
      (if isCall then numArgs else 0) + count_call_args_list children

/-- Sum of `count_call_args` over a list of children. -/
def count_call_args_list : List PyAst → ℕ
  | [] => 0
  | c :: cs => count_call_args c + count_call_args_list cs

end

/-- `FactorAgent._check_complexity`: `ast.parse` is abstracted as the
function `parse` (returning `none` on `SyntaxError`, which makes the check
fail); the formula passes iff it parses with depth at most 7 and at most 5
call arguments in total. -/
def check_complexity (parse : String → Option PyAst) (formula : String) : Bool :=
  match parse formula with
  | none => false
  | some tree => if 7 < ast_depth tree || 5 < count_call_args tree then false else true

/-- `FactorAgent.common_factors` (set in `__init__`). -/
def common_factors : List String :=
  ["Rank(close)", "RSI(close)", "ts_delta(close, 10)", "Correlation(close, volume, 20)"]

/-- `FactorAgent._check_originality`: `difflib.SequenceMatcher(...).ratio()`
is abstracted as the function `ratio`; the formula passes iff its ratio to
every common factor is at most 0.8. -/
def check_originality (ratio : String → String → ℚ) (formula : String) : Bool :=
  common_factors.all (fun cf => decide (ratio formula cf ≤ 0.8))

/-- Substring containment test `pat in s` via `splitOn`: the split has more
than one piece exactly when `pat` occurs in `s` (for nonempty `pat`). -/
def containsStr (s pat : String) : Bool :=
  (s.splitOn pat).length != 1

/-- The heuristic fallback formulas of `FactorAgent.construct_factor`, chosen
from the lowercased joined hypothesis text. -/
def heuristic_formula (hypothesis_text : String) : String :=
  if containsStr hypothesis_text "breakout" && containsStr hypothesis_text "momentum" then
    "Rank(ts_delta(close, 20) - ts_delta(close, 5))"
  else if containsStr hypothesis_text "order flow" && containsStr hypothesis_text "imbalance" then
    "Rank(ts_delta(close, 1) * volume)"
  else if containsStr hypothesis_text "mean reversion" || containsStr hypothesis_text "revert" then
    "-Rank(ts_delta(close, 5))"
  else
    "Rank(ts_delta(close, 7) - ts_delta(close, 30))"

/-- The formula `construct_factor` subjects to the checks: the LLM result when
the LLM is configured and neither raised nor returned a falsy (empty) string
(`llm_formula = some f` with `f ≠ ""`), otherwise the heuristic fallback
(`if not formula:`). -/
def chosen_formula (llm_formula : Option String) (hypothesis_text : String) : String :=
  match llm_formula with
  | some f => if f = "" then heuristic_formula hypothesis_text else f
  | none => heuristic_formula hypothesis_text

/-- `FactorAgent.construct_factor`: pick the formula, then return
`"Error: Formula is too complex."` when the complexity check fails,
`"Error: Formula is not original enough."` when the originality check fails,
and the formula itself otherwise. -/
def construct_factor (llm_formula : Option String) (parse : String → Option PyAst)
    (ratio : String → String → ℚ) (hypothesis_text : String) : String :=
  let formula := chosen_formula llm_formula hypothesis_text
  if check_complexity parse formula then
    if check_originality ratio formula then formula
    else "Error: Formula is not original enough."
  else "Error: Formula is too complex."

/-! ## Concrete inputs used by counterexamples and witnesses -/

/-- A bar whose close price is 100, recorded for symbol `X`. -/
def priceBar : Bar := ⟨0, 100, 100, 100, 100, 1000⟩

/-- A data-handler state whose last (and only) known bar for `X` is `priceBar`,
so the last known market price of `X` is 100. -/
def priceHandler : IBKRDataHandler := ⟨[("X", [priceBar])], [("X", [priceBar])], true⟩

/-- A market order to buy 10 shares of `X`. -/
def orderX : OrderEvent := ⟨"X", "MKT", 10, "BUY"⟩

/-- A market order with quantity 0. -/
def orderZero : OrderEvent := ⟨"X", "MKT", 0, "BUY"⟩

/-- A data-handler state holding an empty bar list for symbol `Y`. -/
def emptyHandler : IBKRDataHandler := ⟨[], [("Y", [])], true⟩

/-- A bar with all fields zero, used where only bar counts matter. -/
def zBar : Bar := ⟨0, 0, 0, 0, 0, 0⟩

/-- A pandas frame holding zero bars. -/
def zeroBarFrame : Frame := ⟨[]⟩

/-! ## Helper lemmas -/

/-- For a non-positive quantity the tiered schedule degenerates to the 1.30
minimum. -/
theorem calculate_ib_commission_of_nonpos {q : ℤ} (h : q ≤ 0) :
    calculate_ib_commission q = 1.3 := by
  unfold calculate_ib_commission
  rw [if_pos (by omega)]
  refine max_eq_left ?_
  have hq : (q : ℚ) ≤ 0 := by exact_mod_cast h
  nlinarith

/-! ## Claims -/

/-- Claim C2: for every `FillEvent` constructed without an explicit commission
(`commission = None`), the stored commission equals the tiered schedule
`max(1.30, 0.013 × quantity)` for `quantity ≤ 500` and
`max(1.30, 0.008 × quantity)` for `quantity > 500`. -/
theorem c2_default_commission_is_tiered_schedule (timeindex : ℕ)
    (symbol exchange : String) (quantity : ℤ) (direction : String)
    (fill_cost : Option ℚ) :
    (FillEvent.init timeindex symbol exchange quantity direction fill_cost none).commission =
      if quantity ≤ 500 then max 1.3 (0.013 * (quantity : ℚ))
      else max 1.3 (0.008 * (quantity : ℚ)) := rfl

/-- Claim C5: for every non-negative quantity the commission is at least 1.30,
and the commission is monotonically non-decreasing within each tier (both
quantities ≤ 500, or both > 500). -/
theorem c5_commission_lower_bound_and_tier_monotone :
    (∀ q : ℤ, 0 ≤ q → (1.3 : ℚ) ≤ calculate_ib_commission q) ∧
    (∀ q1 q2 : ℤ, 0 ≤ q1 → q1 ≤ q2 →
      ((q1 ≤ 500 ∧ q2 ≤ 500) ∨ (500 < q1 ∧ 500 < q2)) →
      calculate_ib_commission q1 ≤ calculate_ib_commission q2) := by
  constructor
  · intro q _
    unfold calculate_ib_commission
    split <;> exact le_max_left _ _
  · intro q1 q2 _ hle htier
    have hq : (q1 : ℚ) ≤ (q2 : ℚ) := by exact_mod_cast hle
    unfold calculate_ib_commission
    rcases htier with ⟨h1, h2⟩ | ⟨h1, h2⟩
    · rw [if_pos h1, if_pos h2]
      exact max_le_max le_rfl (by nlinarith)
    · rw [if_neg (by omega), if_neg (by omega)]
      exact max_le_max le_rfl (by nlinarith)

/-- Witness for C5 at concrete quantities 0, 100 and 200. -/
theorem c5_witness :
    (1.3 : ℚ) ≤ calculate_ib_commission 0 ∧
      calculate_ib_commission 100 ≤ calculate_ib_commission 200 :=
  ⟨c5_commission_lower_bound_and_tier_monotone.1 0 (by norm_num),
   c5_commission_lower_bound_and_tier_monotone.2 100 200 (by norm_num) (by norm_num)
     (Or.inl ⟨by norm_num, by norm_num⟩)⟩

/-- Claim C1, amended: each Order event fed to `execute_order` produces exactly
one Fill on the queue, carrying the same symbol, the same direction and the
entire requested quantity, with fills in one-to-one correspondence with orders
in emission order — but with `fill_cost = None`, not the last known market
price. -/
theorem c1_one_fill_per_order_with_cost_none (now : ℕ) (events : List Event)
    (orders : List OrderEvent) :
    execute_orders now events (orders.map Event.order) =
      events ++ orders.map (fun o =>
        Event.fill (FillEvent.init now o.symbol "ARCA" o.quantity o.direction none none)) := by
  induction orders generalizing events with
  | nil => simp [execute_orders]
  | cons o os ih =>
      show execute_orders now (execute_order now events (.order o)) (os.map Event.order) = _
      rw [ih]
      simp [execute_order]

/-- Counterexample to claim C1 as stated: with the last known market price of
`X` equal to 100, executing a buy order for `X` emits a fill whose `fill_cost`
is `None`, not 100. -/
theorem c1_counterexample_fill_cost_none :
    get_latest_bar_value priceHandler "X" .close = some 100 ∧
    execute_order 0 [] (.order orderX) =
      [.fill ⟨0, "X", "ARCA", 10, "BUY", none, 1.3⟩] ∧
    FillEvent.fill_cost ⟨0, "X", "ARCA", 10, "BUY", none, 1.3⟩ ≠ some 100 := by
  refine ⟨rfl, ?_, by simp⟩
  simp only [execute_order, FillEvent.init, orderX]
  norm_num [calculate_ib_commission]

/-- Claim C6, amended: executing an order with quantity ≤ 0 raises no error:
`execute_order` performs no validation and emits a Fill for it exactly as for
a valid order (full non-positive quantity, `fill_cost = None`, commission
clamped to the 1.30 minimum). -/
theorem c6_nonpositive_quantity_order_is_filled (now : ℕ) (events : List Event)
    (o : OrderEvent) (h : o.quantity ≤ 0) :
    execute_order now events (.order o) =
      events ++ [.fill ⟨now, o.symbol, "ARCA", o.quantity, o.direction, none, 1.3⟩] := by
  simp only [execute_order, FillEvent.init]
  rw [calculate_ib_commission_of_nonpos h]

/-- Witness for C6 (amended) at a concrete quantity-zero order. -/
theorem c6_witness :
    execute_order 0 [] (.order orderZero) =
      [.fill ⟨0, "X", "ARCA", 0, "BUY", none, 1.3⟩] :=
  c6_nonpositive_quantity_order_is_filled 0 [] orderZero (by decide)

/-- Counterexample to claim C6 as stated: executing an order with quantity 0
emits a Fill event (the queue is no longer empty) instead of raising an
`InvalidOrder` error and emitting nothing. -/
theorem c6_counterexample_zero_quantity_fill_emitted :
    execute_order 0 [] (.order orderZero) ≠ [] ∧
    ∃ f : FillEvent, execute_order 0 [] (.order orderZero) = [.fill f] ∧
      f.quantity = 0 := by
  constructor
  · intro hcontra
    simp [execute_order] at hcontra
  · exact ⟨_, rfl, rfl⟩

/-- Claim C9: for every symbol with no recorded bar — absent from
`latest_symbol_data` or mapped to an empty bar list — both
`get_latest_bar_value` and `get_latest_bar_datetime` return `None` rather
than raising. -/
theorem c9_no_recorded_bar_returns_none (h : IBKRDataHandler) (symbol : String)
    (val_type : ValType)
    (hmiss : dictGet h.latest_symbol_data symbol = none ∨
             dictGet h.latest_symbol_data symbol = some []) :
    get_latest_bar_value h symbol val_type = none ∧
    get_latest_bar_datetime h symbol = none := by
  rcases hmiss with hm | hm <;>
    simp [get_latest_bar_value, get_latest_bar_datetime, hm]

/-- Witness for C9 on a handler whose bar list for `Y` is empty. -/
theorem c9_witness :
    get_latest_bar_value emptyHandler "Y" .close = none ∧
    get_latest_bar_datetime emptyHandler "Y" = none :=
  c9_no_recorded_bar_returns_none emptyHandler "Y" .close (Or.inr rfl)

/-- Claim C4, amended: `stream_next_bar` pushes exactly one payload-free
Market event per bar (one per tick, not one per symbol), and it streams the
symbols sequentially — all bars of each symbol in chronological order before
any bar of the next symbol — so the bar-index sequence is monotone (strictly
bar-synchronous) only for a single-symbol run. -/
theorem c4_one_event_per_bar_and_single_symbol_in_order
    (symbol_data : List (String × List Bar)) :
    (stream_next_bar_trace symbol_data).length =
        (symbol_data.map (fun p => p.2.length)).sum ∧
    (stream_next_bar_events symbol_data).length =
        (symbol_data.map (fun p => p.2.length)).sum ∧
    (∀ s bars, stream_next_bar_trace [(s, bars)] =
        (List.range bars.length).map (fun i => (s, i))) ∧
    (∀ s bars, List.Pairwise (fun x y : String × ℕ => x.2 ≤ y.2)
        (stream_next_bar_trace [(s, bars)])) := by
  refine ⟨?_, ?_, ?_, ?_⟩
  · simp [stream_next_bar_trace, Function.comp_def]
  · simp [stream_next_bar_events, stream_next_bar_trace, Function.comp_def]
  · intro s bars
    simp [stream_next_bar_trace]
  · intro s bars
    have h1 : stream_next_bar_trace [(s, bars)] =
        (List.range bars.length).map (fun i => (s, i)) := by
      simp [stream_next_bar_trace]
    rw [h1, List.pairwise_map]
    exact (List.pairwise_lt_range bars.length).imp (fun hab => Nat.le_of_lt hab)

/-- Counterexample to claim C4 as stated: with two symbols of two bars each,
the emission order is all of `A`'s bars then all of `B`'s bars, so the event
for `A`'s bar 1 (bar N+1) is processed before the event for `B`'s bar 0
(bar N) — the bar-index sequence is not monotone and the run is not
bar-synchronous. -/
theorem c4_counterexample_two_symbols :
    stream_next_bar_trace [("A", [zBar, zBar]), ("B", [zBar, zBar])] =
      [("A", 0), ("A", 1), ("B", 0), ("B", 1)] ∧
    ¬ List.Pairwise (fun x y : String × ℕ => x.2 ≤ y.2)
        (stream_next_bar_trace [("A", [zBar, zBar]), ("B", [zBar, zBar])]) := by
  constructor
  · rfl
  · intro h
    rw [show stream_next_bar_trace [("A", [zBar, zBar]), ("B", [zBar, zBar])] =
      [("A", 0), ("A", 1), ("B", 0), ("B", 1)] from rfl] at h
    simp [List.pairwise_cons] at h

/-- Claim C3: the four summary statistics `evaluate_factor` returns do not
depend on the random draw feeding the dummy equity curve: any two evaluations
yield identical performance metrics, so the statistics are a deterministic
function of the finalized equity curve and no randomness enters the
performance-statistics component. -/
theorem c3_metrics_independent_of_random_draw (r1 r2 : List ℚ) :
    evaluate_factor_metrics r1 = evaluate_factor_metrics r2 := rfl

/-- Claim C7: whenever the factor evaluation raises, `_apply_factor` returns
`None` instead of propagating the exception, and (spec-modelled downstream)
no Signal is emitted from a `None` factor result. -/
theorem c7_apply_factor_returns_none_on_error (α β : Type)
    (ev : String → α → Except PyError β) (emit : β → List Event)
    (factor_code : String) (data : α) (err : PyError)
    (h : ev factor_code data = .error err) :
    apply_factor ev factor_code data = none ∧
    signals_from_factor emit (apply_factor ev factor_code data) = [] := by
  simp [apply_factor, h, signals_from_factor]

/-- Witness for C7 on a concrete always-raising evaluation. -/
theorem c7_witness :
    apply_factor (fun (_ : String) (_ : Unit) => (.error (.other "boom") : Except PyError Unit))
        "close / 0" () = none ∧
    signals_from_factor (fun _ => [])
      (apply_factor (fun (_ : String) (_ : Unit) => (.error (.other "boom") : Except PyError Unit))
        "close / 0" ()) = [] :=
  c7_apply_factor_returns_none_on_error Unit Unit _ _ "close / 0" () (.other "boom") rfl

/-- Claim C8 (code bug): on a data source yielding zero bars, the prologue of
`evaluate_factor` raises `IndexError` at
`symbol_data[symbol_list[0]].index[0]` instead of terminating cleanly with an
empty equity curve and sentinel statistics. -/
theorem c8_zero_bars_raises_index_error :
    evaluate_factor_start ["X"] [("X", zeroBarFrame)] = .error .indexError := rfl

/-- A passing complexity check certifies a successful parse with AST depth at
most 7 and at most 5 call arguments in total. -/
theorem check_complexity_bounds {parse : String → Option PyAst} {formula : String}
    (h : check_complexity parse formula = true) :
    ∃ tree, parse formula = some tree ∧ ast_depth tree ≤ 7 ∧ count_call_args tree ≤ 5 := by
  unfold check_complexity at h
  cases hp : parse formula with
  | none => rw [hp] at h; simp at h
  | some tree =>
      rw [hp] at h
      simp at h
      exact ⟨tree, rfl, by omega, by omega⟩

/-- A passing originality check certifies similarity ratio at most 0.8 to
every common factor. -/
theorem check_originality_bounds {ratio : String → String → ℚ} {formula : String}
    (h : check_originality ratio formula = true) :
    ∀ cf ∈ common_factors, ratio formula cf ≤ 0.8 := by
  intro cf hcf
  unfold check_originality at h
  rw [List.all_eq_true] at h
  simpa using h cf hcf

/-- Claim C10: every string `construct_factor` returns either begins with
`"Error:"` or is a formula that parses and passes both regularization checks:
AST depth at most 7, at most 5 call arguments in total, and difflib
similarity ratio at most 0.8 to each of the four built-in common factors. -/
theorem c10_construct_factor_regularized (llm_formula : Option String)
    (parse : String → Option PyAst) (ratio : String → String → ℚ)
    (hypothesis_text : String) :
    (∃ suffix, construct_factor llm_formula parse ratio hypothesis_text =
        "Error:" ++ suffix) ∨
    (∃ tree, parse (construct_factor llm_formula parse ratio hypothesis_text) = some tree ∧
      ast_depth tree ≤ 7 ∧ count_call_args tree ≤ 5 ∧
      ∀ cf ∈ common_factors,
        ratio (construct_factor llm_formula parse ratio hypothesis_text) cf ≤ 0.8) := by
  unfold construct_factor
  by_cases hc : check_complexity parse (chosen_formula llm_formula hypothesis_text) = true
  · by_cases ho : check_originality ratio (chosen_formula llm_formula hypothesis_text) = true
    · right
      rw [if_pos hc, if_pos ho]
      obtain ⟨tree, hp, h7, h5⟩ := check_complexity_bounds hc
      exact ⟨tree, hp, h7, h5, check_originality_bounds ho⟩
    · left
      rw [if_pos hc, if_neg ho]
      exact ⟨" Formula is not original enough.", rfl⟩
  · left
    rw [if_neg hc]
    exact ⟨" Formula is too complex.", rfl⟩

/-- Witness for C10 at a concrete trivial parser, zero similarity ratio and
empty hypothesis text. -/
theorem c10_witness :
    (∃ suffix, construct_factor none (fun _ => some (.node false 0 []))
        (fun _ _ => 0) "" = "Error:" ++ suffix) ∨
    (∃ tree, (fun _ : String => some (PyAst.node false 0 []))
        (construct_factor none (fun _ => some (.node false 0 [])) (fun _ _ => 0) "") =
          some tree ∧
      ast_depth tree ≤ 7 ∧ count_call_args tree ≤ 5 ∧
      ∀ cf ∈ common_factors,
        (fun (_ _ : String) => (0 : ℚ))
          (construct_factor none (fun _ => some (.node false 0 [])) (fun _ _ => 0) "") cf
            ≤ 0.8) :=
  c10_construct_factor_regularized none (fun _ => some (.node false 0 [])) (fun _ _ => 0) ""

end GeminiTrading
